/- Verification development for the command-validation and execution gate of
the portfolio terminal backend (main.py).  The Python source is shallowly
embedded: `shlex.split` (POSIX mode) is modelled as an explicit lexer state
machine, the allowlist tables are literal data, `is_command_safe` returns
`Option (List String)` in place of the `(bool, list | None)` pair, and the
`/run_command` handler is a pure function parameterised by the executor. -/
import Mathlib

namespace PyTerm

/-- Python `str.strip()` whitespace characters (ASCII range). -/
def pyWsChar (c : Char) : Bool :=
  c = ' ' || c = '\t' || c = '\n' || c = '\r' || c = '\x0b' || c = '\x0c'

/-- The token separators of the lexer, `shlex.whitespace`. -/
def shlexWsChar (c : Char) : Bool :=
  c = ' ' || c = '\t' || c = '\r' || c = '\n'

/-- Python `s.strip()`: remove leading and trailing whitespace. -/
def pyStrip (s : String) : String :=
  String.mk (((s.data.dropWhile pyWsChar).reverse.dropWhile pyWsChar).reverse)

/-- ASCII lowercasing of one character, as Python `str.lower` acts on ASCII. -/
def pyLowerChar (c : Char) : Char :=
  if 'A' ≤ c ∧ c ≤ 'Z' then Char.ofNat (c.toNat + 32) else c

/-- Python `s.lower()` (ASCII fragment). -/
def pyLower (s : String) : String :=
  String.mk (s.data.map pyLowerChar)

/-- Python slicing `s[n:]`. -/
def strDrop (s : String) (n : Nat) : String :=
  String.mk (s.data.drop n)

/-- Python `s.startswith(p)`. -/
def strStartsWith (s p : String) : Bool :=
  p.data.isPrefixOf s.data

/-- Contiguous-sublist test on character lists. -/
def hasSubList (sub : List Char) : List Char → Bool
  | [] => sub.isEmpty
  | c :: rest => sub.isPrefixOf (c :: rest) || hasSubList sub rest

/-- Python `sub in s` for strings. -/
def strContainsSub (s sub : String) : Bool :=
  hasSubList sub.data s.data

/-- The character class `[a-zA-Z0-9]` of the fallback flag regex. -/
def isAlnumAscii (c : Char) : Bool :=
  ('a' ≤ c && c ≤ 'z') || ('A' ≤ c && c ≤ 'Z') || ('0' ≤ c && c ≤ '9')

/-- The forbidden metacharacter set of the regex `[;&|\x60$(){}\\]`
scanned over every argument token (main.py line 177). -/
def metachars : List Char :=
  [';', '&', '|', '\x60', '$', '(', ')', '\x7b', '\x7d', '\\']

/-- Truthiness of the search for a forbidden character: some character of
`s` is in the forbidden set (main.py line 177). -/
def hasMeta (s : String) : Bool :=
  s.data.any (fun c => metachars.contains c)

/-- Truthiness of the fallback flag pattern match (main.py line 190): a
dash followed by one or more alphanumerics; the `$` anchor of Python also
matches just before a single trailing newline. -/
def fallbackFlag (arg : String) : Bool :=
  match arg.data with
  | c :: cs =>
    (c = '-' : Bool) &&
    ((!cs.isEmpty && cs.all isAlnumAscii) ||
     (match cs.reverse with
      | c2 :: bodyRev =>
        (c2 = '\n' : Bool) && (!bodyRev.isEmpty && bodyRev.all isAlnumAscii)
      | [] => false))
  | [] => false

/-- The allowlist `SAFE_COMMANDS` (main.py lines 83-141): command name
mapped to the list of explicitly allowed flags. -/
def SAFE_COMMANDS : List (String × List String) :=
  [("ls", ["-l", "-a", "-la", "-h", "-R", "--color=auto"]),
   ("pwd", []),
   ("whoami", []),
   ("id", []),
   ("cat", []),
   ("head", ["-n"]),
   ("tail", ["-n"]),
   ("wc", ["-l", "-w", "-c"]),
   ("file", []),
   ("stat", []),
   ("find", ["-name", "-type", "-maxdepth"]),
   ("ps", ["aux", "-ef", "-u"]),
   ("top", ["-n"]),
   ("jobs", []),
   ("uname", ["-a", "-r", "-s"]),
   ("uptime", []),
   ("free", ["-h"]),
   ("df", ["-h"]),
   ("du", ["-h", "-s"]),
   ("lscpu", []),
   ("lsblk", []),
   ("mount", []),
   ("ping", ["-c"]),
   ("host", []),
   ("nslookup", []),
   ("ifconfig", []),
   ("ip", ["addr", "route"]),
   ("date", []),
   ("cal", []),
   ("grep", ["-n", "-i", "-v", "-c"]),
   ("sort", []),
   ("uniq", []),
   ("cut", ["-d", "-f"]),
   ("env", []),
   ("printenv", []),
   ("which", []),
   ("whereis", []),
   ("type", []),
   ("echo", []),
   ("printf", []),
   ("basename", []),
   ("dirname", []),
   ("realpath", []),
   ("readlink", [])]

/-- Membership test and lookup in the allowlist, modelling the pair of
Python operations on the dictionary. -/
def lookupSafe (c : String) : Option (List String) :=
  (SAFE_COMMANDS.find? (fun p => p.1 = c)).map (fun p => p.2)

/-- The readable-path allowlist `SAFE_READ_PATHS` (main.py lines 144-147). -/
def SAFE_READ_PATHS : List String :=
  ["/etc/os-release", "/etc/hostname", "/etc/timezone", "/proc/cpuinfo",
   "/proc/meminfo", "/proc/version", "/proc/uptime", "/proc/loadavg"]

/-- Lexer states of `shlex` in POSIX whitespace-split mode: between tokens,
inside a word, inside single quotes, inside double quotes, after a
backslash seen in a word, after a backslash seen inside double quotes. -/
inductive LexSt
  | ws
  | word
  | squote
  | dquote
  | escW
  | escD
deriving DecidableEq

/-- The `shlex.read_token` loop (posix=True, whitespace_split=True,
comments off): `tok` is the reversed token accumulator, `quoted` records
whether the current token saw a quote, `acc` the emitted tokens.  `none`
models `ValueError` (unclosed quotation / dangling escape). -/
def shlexRun : List Char → LexSt → List Char → Bool → List String →
    Option (List String)
  | [], st, tok, quoted, acc =>
    match st with
    | .ws => if !tok.isEmpty || quoted then some (acc ++ [String.mk tok.reverse]) else some acc
    | .word => if !tok.isEmpty || quoted then some (acc ++ [String.mk tok.reverse]) else some acc
    | _ => none
  | c :: rest, st, tok, quoted, acc =>
    match st with
    | .ws =>
      if shlexWsChar c then
        shlexRun rest .ws tok quoted acc
      else if c = '\x27' then shlexRun rest .squote tok quoted acc
      else if c = '"' then shlexRun rest .dquote tok quoted acc
      else if c = '\\' then shlexRun rest .escW tok quoted acc
      else shlexRun rest .word (c :: tok) quoted acc
    | .word =>
      if shlexWsChar c then
        if !tok.isEmpty || quoted then
          shlexRun rest .ws [] false (acc ++ [String.mk tok.reverse])
        else shlexRun rest .ws tok quoted acc
      else if c = '\x27' then shlexRun rest .squote tok quoted acc
      else if c = '"' then shlexRun rest .dquote tok quoted acc
      else if c = '\\' then shlexRun rest .escW tok quoted acc
      else shlexRun rest .word (c :: tok) quoted acc
    | .squote =>
      if c = '\x27' then shlexRun rest .word tok true acc
      else shlexRun rest .squote (c :: tok) true acc
    | .dquote =>
      if c = '"' then shlexRun rest .word tok true acc
      else if c = '\\' then shlexRun rest .escD tok true acc
      else shlexRun rest .dquote (c :: tok) true acc
    | .escW => shlexRun rest .word (c :: tok) quoted acc
    | .escD =>
      if c = '\\' || c = '"' then shlexRun rest .dquote (c :: tok) quoted acc
      else shlexRun rest .dquote (c :: '\\' :: tok) quoted acc

/-- Python `shlex.split(s)`; `none` models a raised `ValueError`. -/
def shlexSplitStr (s : String) : Option (List String) :=
  shlexRun s.data .ws [] false []

/-- The flag check of main.py lines 186-191: a token starting with `-`
passes when it is an allowed flag, extends an allowed flag, or matches the
conservative fallback pattern. -/
def flagOk (allowed : List String) (arg : String) : Bool :=
  allowed.contains arg || allowed.any (fun f => strStartsWith arg f) ||
    fallbackFlag arg

/-- Acceptance of one argument token (main.py lines 176-196): the
metacharacter scan, then the `cat` path restrictions, then the flag check. -/
def checkArg (base : String) (allowed : List String) (arg : String) : Bool :=
  if hasMeta arg then false
  else
    let catOk :=
      if base = "cat" then
        !(strStartsWith arg "/" && !(SAFE_READ_PATHS.contains arg)) &&
        !(strContainsSub arg ".." || strStartsWith arg "~")
      else true
    let flagPass :=
      if strStartsWith arg "-" then flagOk allowed arg else true
    catOk && flagPass

/-- The argument loop of `is_command_safe` (main.py lines 172-196): every
token must pass `checkArg`, and passing tokens are kept verbatim in order. -/
def checkLoop (base : String) (allowed : List String) :
    List String → Option (List String)
  | [] => some []
  | a :: rest =>
    if checkArg base allowed a then
      match checkLoop base allowed rest with
      | some l => some (a :: l)
      | none => none
    else none

/-- The validator `is_command_safe` (main.py lines 150-202): `some argv`
models `(True, safe_args)`, `none` models `(False, None)`. -/
def is_command_safe (command : String) : Option (List String) :=
  match shlexSplitStr (pyStrip command) with
  | none => none
  | some [] => some []
  | some (base :: args) =>
    match lookupSafe base with
    | none => none
    | some allowed =>
      match checkLoop base allowed args with
      | some rest => some (base :: rest)
      | none => none

/-- Entry "about" of `portfolio_data`. -/
def portfolio_about : String :=
  "I am a passionate Machine Learning Engineer and AI researcher with expertise in computer vision, NLP, and full-stack development. I have a proven track record of delivering innovative AI solutions in deepfake detection, document summarization, and secure payment systems with measurable impact. Currently pursuing B.Tech in Artificial Intelligence at SRM Institute of Science and Technology with a 9.3/10.0 CGPA."

/-- Entry "resume" of `portfolio_data`. -/
def portfolio_resume : String :=
  "https://drive.google.com/file/d/1VX4AFT_gJGYr4WUpj6tzu7sa9qMnjOe3/view?usp=sharing"

/-- Entry "skills" of `portfolio_data`. -/
def portfolio_skills : String :=
  "Python (NumPy, Pandas, TensorFlow, PyTorch, Scikit-learn), SQL, Flask, OpenCV, YOLO, Vision Transformers, HuggingFace, Git, Figma"

/-- Entry "projects" of `portfolio_data`. -/
def portfolio_projects : String :=
  "🔥 My Top Projects:\n\n1. Eco Route Optimizer- ML-powered eco-aware route optimization system using Google Cloud APIs\n   🌐: https://github.com/shreeharini-261/Eco_Route_Optimizer\n\n2. RAG Chatbot- Retrieval-Augmented Generation chatbot for document summarization and query answering\n   🌐: https://github.com/shreeharini-261/RAG\n\n3. Real-time OCR System- Handwritten text detection with bounding boxes and Excel export (88-92% accuracy)\n   🌐: https://github.com/shreeharini-261/OCR_pytesseract"

/-- Entry "contact" of `portfolio_data`. -/
def portfolio_contact : String :=
  "📧 Email: shreeharini261@gmail.com\n📞 Phone: +91 9345599591\n💼 LinkedIn: linkedin.com/in/shreeharini-s\n🐙 GitHub: github.com/shreeharini-261\n📍 Location: Chennai, India"

/-- Entry "education" of `portfolio_data`. -/
def portfolio_education : String :=
  "🎓 B.Tech in Artificial Intelligence\n   SRM Institute of Science and Technology\n   CGPA: 9.3/10.0\n   \n📜 Certifications:\n   - NPTEL ELITE: Java, DBMS, Computer Architecture\n   - Coursera: IBM Machine Learning & Deep Learning (90%)"

/-- Entry "experience" of `portfolio_data`. -/
def portfolio_experience : String :=
  "💼 Professional Experience:\n\nCaprae Capital - ML & Software Development Intern\n- Built secure Stripe-based payment system (Flask, PostgreSQL) for SaaSquatch app\n- Enabled subscription management and $1,000/month recurring revenue\n- Implemented encryption for compliance and scalability\n\nHyperverge Nexus - Research Fellow  \n- Developed deepfake detection model using EfficientNet-B7 + Vision Transformers\n- Achieved 90% accuracy and reduced false positives by 25% vs baseline\n\nNextGenAI - Technical Club Head\n- Led ML/DL domain and mentored 40-member team\n- Drove innovative AI projects and solutions"

/-- Entry "achievements" of `portfolio_data`. -/
def portfolio_achievements : String :=
  "🏆 **Key Achievements:**\n\n🥇 NASA Impact Hackathon - 1st Prize\n- Built time-series model for coral reef habitats using 5+ years of NASA geospatial data\n\n🎤 AAIMB 2024 International Conference - Research Presenter\n- Presented peer-reviewed research on RAG vs LLMs\n- Demonstrated 22% metric improvement in document embedding tasks vs baselines"

/-- The portfolio layer `handle_portfolio_command` (main.py lines
205-249): `some out` models `(True, out)`, `none` models `(False, "")`.
The formatted current time of the `date` branch is passed in as
`now_str`. -/
def handle_portfolio_command (now_str : String) (command : String) :
    Option String :=
  let cl := pyStrip (pyLower command)
  if cl = "about" then some portfolio_about
  else if cl = "resume" then some ("📄 My Resume: " ++ portfolio_resume)
  else if cl = "skills" then some ("💻 Technical Skills:\n" ++ portfolio_skills)
  else if cl = "projects" then some portfolio_projects
  else if cl = "contact" then some portfolio_contact
  else if cl = "education" then some portfolio_education
  else if cl = "experience" then some portfolio_experience
  else if cl = "achievements" then some portfolio_achievements
  else if cl = "date" then some now_str
  else if strStartsWith cl "echo " then
    let echo_text := strDrop command 5
    some (if pyStrip echo_text ≠ "" then echo_text else "")
  else if cl = "echo" then some ""
  else none

/-- Outcome of one `subprocess.run` call: normal completion with the two
captured streams and the return code, `subprocess.TimeoutExpired`, or any
other exception carrying `str(e)`. -/
inductive ExecOutcome
  | ok (stdout stderr : String) (returncode : Int)
  | timeout
  | err (msg : String)

/-- An HTTP response of the endpoint: body fields `output` and `status`,
plus the HTTP status code (`jsonify` alone means 200). -/
structure Resp where
  output : String
  status : Int
  http : Nat
deriving DecidableEq

/-- Result of one request: the response, and whether the Executor
(`subprocess.run`) was invoked. -/
structure GateResult where
  resp : Resp
  executorInvoked : Bool
deriving DecidableEq

/-- The uniform policy-rejection body (main.py lines 357-361). -/
def notAllowedMsg : String :=
  "Error: Command not allowed. Only safe read-only commands are permitted."

/-- Combining the child streams (main.py lines 377-384): stdout, then a
newline only if stdout made the buffer non-empty and stderr is non-empty,
then stderr. -/
def combineOutput (stdout stderr : String) : String :=
  let output := ""
  let output := if stdout ≠ "" then output ++ stdout else output
  if stderr ≠ "" then (if output ≠ "" then output ++ "\n" else output) ++ stderr
  else output

/-- The `/run_command` handler (main.py lines 322-397) for a request whose
body carries the string `raw`, with the Executor abstracted as `exec` and
the nondeterministic `date`/`sysinfo` texts passed in. -/
def run_command (now_str sysinfo : String)
    (ex : List String → ExecOutcome) (raw : String) : GateResult :=
  let command := pyStrip raw
  if command = "" then ⟨⟨"", 0, 200⟩, false⟩
  else
    match handle_portfolio_command now_str command with
    | some out => ⟨⟨out, 0, 200⟩, false⟩
    | none =>
      if pyLower command = "sysinfo" then ⟨⟨sysinfo, 0, 200⟩, false⟩
      else
        match is_command_safe command with
        | none => ⟨⟨notAllowedMsg, 1, 403⟩, false⟩
        | some safe_args =>
          match ex safe_args with
          | .ok o e rc => ⟨⟨combineOutput o e, rc, 200⟩, true⟩
          | .timeout =>
            ⟨⟨"Error: Command timed out after 30 seconds", 1, 408⟩, true⟩
          | .err m => ⟨⟨"Error executing command: " ++ m, 1, 500⟩, true⟩

/-- No command name in the allowlist contains a forbidden metacharacter. -/
lemma safe_keys_noMeta : ∀ p ∈ SAFE_COMMANDS, hasMeta p.1 = false := by decide

/-- A successful allowlist lookup implies the looked-up name is free of
forbidden metacharacters. -/
lemma lookupSafe_noMeta {b : String} {fl : List String}
    (h : lookupSafe b = some fl) : hasMeta b = false := by
  unfold lookupSafe at h
  cases hf : SAFE_COMMANDS.find? (fun p => p.1 = b) with
  | none => rw [hf] at h; cases h
  | some p =>
    rw [hf] at h
    have hd := List.find?_some hf
    have hb : p.1 = b := of_decide_eq_true hd
    have hmem : p ∈ SAFE_COMMANDS := List.mem_of_find?_eq_some hf
    rw [← hb]
    exact safe_keys_noMeta p hmem

/-- A token with a forbidden metacharacter never passes the per-token check. -/
lemma checkArg_false_of_meta {base : String} {allowed : List String}
    {arg : String} (h : hasMeta arg = true) :
    checkArg base allowed arg = false := by
  simp [checkArg, h]

/-- A token that passes the per-token check has no forbidden metacharacter. -/
lemma noMeta_of_checkArg {base : String} {allowed : List String}
    {arg : String} (h : checkArg base allowed arg = true) :
    hasMeta arg = false := by
  cases hm : hasMeta arg with
  | false => rfl
  | true => rw [checkArg_false_of_meta hm] at h; cases h

/-- If some token of the argument list fails the per-token check, the
argument loop rejects. -/
lemma checkLoop_none_of_mem {base : String} {allowed : List String}
    {args : List String} {a : String} (ha : a ∈ args)
    (hf : checkArg base allowed a = false) :
    checkLoop base allowed args = none := by
  induction args with
  | nil => cases ha
  | cons x rest ih =>
    rcases List.mem_cons.mp ha with rfl | hmem
    · simp [checkLoop, hf]
    · unfold checkLoop
      rw [ih hmem]
      split <;> simp

/-- Inversion: a successful argument loop keeps the tokens verbatim, and
every token passed the per-token check. -/
lemma checkLoop_eq_some {base : String} {allowed : List String}
    {args l : List String} (h : checkLoop base allowed args = some l) :
    l = args ∧ ∀ a ∈ args, checkArg base allowed a = true := by
  induction args generalizing l with
  | nil =>
    simp [checkLoop] at h
    subst h
    simp
  | cons x rest ih =>
    unfold checkLoop at h
    by_cases hx : checkArg base allowed x = true
    · rw [if_pos hx] at h
      cases hr : checkLoop base allowed rest with
      | none => rw [hr] at h; cases h
      | some l' =>
        rw [hr] at h
        obtain ⟨hl', hall⟩ := ih hr
        have hxl : x :: l' = l := by simpa using h
        subst hxl
        constructor
        · rw [hl']
        · intro a ha
          rcases List.mem_cons.mp ha with rfl | hmem
          · exact hx
          · exact hall a hmem
    · rw [if_neg hx] at h; cases h

/-- If every token passes the per-token check, the argument loop succeeds
and returns the tokens verbatim. -/
lemma checkLoop_of_all {base : String} {allowed : List String}
    {args : List String} (h : ∀ a ∈ args, checkArg base allowed a = true) :
    checkLoop base allowed args = some args := by
  induction args with
  | nil => rfl
  | cons x rest ih =>
    unfold checkLoop
    rw [if_pos (h x (List.mem_cons_self x rest)),
      ih (fun a ha => h a (List.mem_cons_of_mem x ha))]

/-- Unfolding `is_command_safe` once the tokenizer result is known. -/
lemma is_command_safe_cons {s base : String} {args : List String}
    (hs : shlexSplitStr (pyStrip s) = some (base :: args)) :
    is_command_safe s =
      (match lookupSafe base with
       | none => none
       | some allowed =>
         match checkLoop base allowed args with
         | some rest => some (base :: rest)
         | none => none) := by
  unfold is_command_safe
  rw [hs]

/-- Stripping a string made only of whitespace yields the empty string. -/
lemma pyStrip_eq_empty {s : String} (h : ∀ c ∈ s.data, pyWsChar c = true) :
    pyStrip s = "" := by
  unfold pyStrip
  rw [List.dropWhile_eq_nil_iff.mpr h]
  rfl

lemma str_empty_append (s : String) : "" ++ s = s := by
  cases s
  rfl

lemma str_append_empty (s : String) : s ++ "" = s := by
  cases s with
  | mk l =>
    show String.mk (l ++ []) = String.mk l
    rw [List.append_nil]

/-- A `cat` argument that is an out-of-allowlist absolute path, contains
`..`, or begins with `~` fails the per-token check. -/
lemma checkArg_cat_false {allowed : List String} {arg : String}
    (h : (strStartsWith arg "/" && !(SAFE_READ_PATHS.contains arg)
          || strContainsSub arg ".." || strStartsWith arg "~") = true) :
    checkArg "cat" allowed arg = false := by
  unfold checkArg
  cases hm : hasMeta arg with
  | true => simp
  | false =>
    cases hA : strStartsWith arg "/" <;>
      cases hB : SAFE_READ_PATHS.contains arg <;>
        cases hC : strContainsSub arg ".." <;>
          cases hD : strStartsWith arg "~" <;>
            simp_all

/-- C1 counterexample: the raw input `head a\b` contains the forbidden
backslash, yet the tokenizer consumes the backslash as an escape and
validation accepts the command as `["head", "ab"]`. -/
theorem c1_counterexample :
    '\\' ∈ metachars ∧ '\\' ∈ "head a\\b".data ∧
      is_command_safe "head a\\b" = some ["head", "ab"] :=
  ⟨by decide, by decide, by decide⟩

/-- C1 (amended): if tokenization of the input yields any token containing
a character of the forbidden metacharacter set, validation rejects the
input, regardless of which command name the string starts with. -/
theorem c1_token_with_meta_rejected (s tok : String) (toks : List String)
    (hs : shlexSplitStr (pyStrip s) = some toks)
    (hmem : tok ∈ toks) (hm : hasMeta tok = true) :
    is_command_safe s = none := by
  cases toks with
  | nil => cases hmem
  | cons base args =>
    rw [is_command_safe_cons hs]
    split
    · rfl
    · rename_i allowed hl
      rcases List.mem_cons.mp hmem with rfl | hmem'
      · rw [lookupSafe_noMeta hl] at hm; cases hm
      · rw [checkLoop_none_of_mem hmem' (checkArg_false_of_meta hm)]

/-- Witness for C1 (amended) at the concrete input `head a;b`. -/
theorem c1_token_with_meta_rejected_witness :
    shlexSplitStr (pyStrip "head a;b") = some ["head", "a;b"] ∧
      "a;b" ∈ ["head", "a;b"] ∧ hasMeta "a;b" = true ∧
      is_command_safe "head a;b" = none :=
  ⟨by decide, by decide, by decide,
    c1_token_with_meta_rejected "head a;b" "a;b" ["head", "a;b"]
      (by decide) (by decide) (by decide)⟩

/-- C5: no element of an accepted argv, the command name included,
contains any character of the forbidden metacharacter set. -/
theorem c5_accepted_argv_noMeta (s : String) (argv : List String)
    (h : is_command_safe s = some argv) :
    ∀ a ∈ argv, hasMeta a = false := by
  intro a ha
  unfold is_command_safe at h
  split at h
  · cases h
  · obtain rfl : ([] : List String) = argv := Option.some.inj h
    cases ha
  · rename_i base args heq
    split at h
    · cases h
    · rename_i allowed hl
      split at h
      · rename_i rest hc
        obtain rfl : base :: rest = argv := Option.some.inj h
        obtain ⟨hra, hall⟩ := checkLoop_eq_some hc
        rcases List.mem_cons.mp ha with rfl | hmem
        · exact lookupSafe_noMeta hl
        · exact noMeta_of_checkArg (hall a (hra ▸ hmem))
      · cases h

/-- Witness for C5 at the concrete accepted input `ls -la`. -/
theorem c5_accepted_argv_noMeta_witness :
    is_command_safe "ls -la" = some ["ls", "-la"] ∧
      ∀ a ∈ ["ls", "-la"], hasMeta a = false :=
  ⟨by decide,
    c5_accepted_argv_noMeta "ls -la" ["ls", "-la"] (by decide)⟩

/-- C4 counterexample: the `cat` argument `a~b` contains `~` (not at the
start), yet validation accepts it: `~` is only tested with `startswith`. -/
theorem c4_counterexample :
    strContainsSub "a~b" "~" = true ∧
      is_command_safe "cat a~b" = some ["cat", "a~b"] :=
  ⟨by decide, by decide⟩

/-- C4 (amended): for `cat`, any argument token that is an absolute path
outside `SAFE_READ_PATHS`, or contains `..` anywhere, or begins with `~`,
makes validation reject the input. -/
theorem c4_cat_path_rejected (s arg : String) (args : List String)
    (hs : shlexSplitStr (pyStrip s) = some ("cat" :: args))
    (hmem : arg ∈ args)
    (hbad : (strStartsWith arg "/" && !(SAFE_READ_PATHS.contains arg)
            || strContainsSub arg ".." || strStartsWith arg "~") = true) :
    is_command_safe s = none := by
  rw [is_command_safe_cons hs]
  split
  · rfl
  · rename_i allowed hl
    rw [checkLoop_none_of_mem hmem (checkArg_cat_false hbad)]

/-- Witness for C4 (amended) at the concrete input `cat /etc/passwd`. -/
theorem c4_cat_path_rejected_witness :
    shlexSplitStr (pyStrip "cat /etc/passwd") = some ["cat", "/etc/passwd"] ∧
      "/etc/passwd" ∈ ["/etc/passwd"] ∧
      (strStartsWith "/etc/passwd" "/" &&
        !(SAFE_READ_PATHS.contains "/etc/passwd")) = true ∧
      is_command_safe "cat /etc/passwd" = none :=
  ⟨by decide, by decide, by decide,
    c4_cat_path_rejected "cat /etc/passwd" "/etc/passwd" ["/etc/passwd"]
      (by decide) (by decide) (by decide)⟩

/-- A token passing the `startswith("-")` test begins with a dash. -/
lemma startsWith_dash {arg : String} (hd : strStartsWith arg "-" = true) :
    ∃ rest, arg.data = '-' :: rest := by
  unfold strStartsWith at hd
  cases hl : arg.data with
  | nil => rw [hl] at hd; cases hd
  | cons c rest =>
    rw [hl] at hd
    have hdm : "-".data = ['-'] := by decide
    rw [hdm] at hd
    have hc : c = '-' := by
      simp [List.isPrefixOf] at hd
      exact hd.symm
    exact ⟨rest, by rw [hc]⟩

/-- Character lists all of whose characters differ from `.` contain no
occurrence of `..`. -/
lemma hasSubList_dotdot_false {l : List Char} (h : ∀ c ∈ l, c ≠ '.') :
    hasSubList ['.', '.'] l = false := by
  induction l with
  | nil => rfl
  | cons c rest ih =>
    have hc : ('.' == c) = false :=
      beq_eq_false_iff_ne.mpr (Ne.symm (h c (List.mem_cons_self c rest)))
    have hrest := ih (fun x hx => h x (List.mem_cons_of_mem c hx))
    show (List.isPrefixOf ['.', '.'] (c :: rest) || hasSubList ['.', '.'] rest)
      = false
    rw [hrest, Bool.or_false]
    show (('.' == c) && List.isPrefixOf ['.'] rest) = false
    rw [hc, Bool.false_and]

/-- A token matching the fallback flag pattern contains no dot: its
characters are the dash, alphanumerics, and possibly a trailing newline. -/
lemma fallbackFlag_no_dot {arg : String} (hf : fallbackFlag arg = true) :
    ∀ c ∈ arg.data, c ≠ '.' := by
  unfold fallbackFlag at hf
  split at hf
  · rename_i c0 cs harg
    rw [Bool.and_eq_true] at hf
    obtain ⟨hc0, hrest⟩ := hf
    have hc0' : c0 = '-' := of_decide_eq_true hc0
    intro c hc
    rw [harg] at hc
    rcases List.mem_cons.mp hc with rfl | hmem
    · rw [hc0']; decide
    · rw [Bool.or_eq_true] at hrest
      rcases hrest with h1 | h2
      · rw [Bool.and_eq_true] at h1
        have halnum := List.all_eq_true.mp h1.2 c hmem
        intro hdot
        rw [hdot] at halnum
        exact absurd halnum (by decide)
      · split at h2
        · rename_i c2 bodyRev hrev
          rw [Bool.and_eq_true, Bool.and_eq_true] at h2
          obtain ⟨hc2, _, hball⟩ := h2
          have hc2' : c2 = '\n' := of_decide_eq_true hc2
          have hcs : cs = bodyRev.reverse ++ [c2] := by
            have hrr := congrArg List.reverse hrev
            simpa using hrr
          rw [hcs] at hmem
          rcases List.mem_append.mp hmem with hmem1 | hmem2
          · have hcb : c ∈ bodyRev := List.mem_reverse.mp hmem1
            have halnum := List.all_eq_true.mp hball c hcb
            intro hdot
            rw [hdot] at halnum
            exact absurd halnum (by decide)
          · have hcc : c = c2 := by simpa using hmem2
            rw [hcc, hc2']
            decide
        · cases h2
  · cases hf

/-- For `cat` (empty allowed-flag set), a metacharacter-free dash-leading
token passes the per-token check exactly when it matches the fallback
pattern: a fallback-matching token starts with `-` (so it is neither an
absolute path nor `~`-leading) and contains no dot (so no `..`). -/
lemma checkArg_cat_dash {arg : String} (hm : hasMeta arg = false)
    (hd : strStartsWith arg "-" = true) :
    checkArg "cat" [] arg = fallbackFlag arg := by
  cases hf : fallbackFlag arg with
  | false => simp [checkArg, hm, hd, flagOk, hf]
  | true =>
    obtain ⟨rest, harg⟩ := startsWith_dash hd
    have hslash : strStartsWith arg "/" = false := by
      unfold strStartsWith
      rw [harg]
      have hdm : "/".data = ['/'] := by decide
      rw [hdm]
      rfl
    have htilde : strStartsWith arg "~" = false := by
      unfold strStartsWith
      rw [harg]
      have hdm : "~".data = ['~'] := by decide
      rw [hdm]
      rfl
    have hdots : strContainsSub arg ".." = false := by
      unfold strContainsSub
      have hdm : "..".data = ['.', '.'] := by decide
      rw [hdm]
      exact hasSubList_dotdot_false (fallbackFlag_no_dot hf)
    simp [checkArg, hm, hd, flagOk, hf, hslash, htilde, hdots]

/-- C3 counterexample: `sort` has an empty allowed-flag set, yet the flag
`-r` is accepted through the alphanumeric fallback pattern. -/
theorem c3_counterexample :
    lookupSafe "sort" = some [] ∧ strStartsWith "-r" "-" = true ∧
      is_command_safe "sort -r" = some ["sort", "-r"] :=
  ⟨by decide, by decide, by decide⟩

/-- C3 (amended): for every command with an empty allowed-flag set (`cat`
included), a metacharacter-free token beginning with `-` passes the
per-token check exactly when it matches the fallback pattern
`^-[a-zA-Z0-9]+$`; concretely, `sort -r` is accepted while
`sort --reverse` is rejected, and likewise `cat -x` is accepted while
`cat --x` is rejected. -/
theorem c3_empty_flagset_fallback :
    (∀ cmd arg : String, lookupSafe cmd = some [] →
      hasMeta arg = false → strStartsWith arg "-" = true →
      checkArg cmd [] arg = fallbackFlag arg) ∧
    is_command_safe "sort --reverse" = none ∧
    is_command_safe "cat -x" = some ["cat", "-x"] ∧
    is_command_safe "cat --x" = none := by
  refine ⟨?_, by decide, by decide, by decide⟩
  intro cmd arg hcmd hm hd
  by_cases hnc : cmd = "cat"
  · subst hnc
    exact checkArg_cat_dash hm hd
  · simp [checkArg, hm, hnc, hd, flagOk]

/-- Witness for C3 (amended) at the concrete commands `sort` and `cat`
with the flag `-r`. -/
theorem c3_empty_flagset_fallback_witness :
    checkArg "sort" [] "-r" = fallbackFlag "-r" ∧
      checkArg "cat" [] "-r" = fallbackFlag "-r" ∧
      fallbackFlag "-r" = true :=
  ⟨c3_empty_flagset_fallback.1 "sort" "-r" (by decide) (by decide)
      (by decide),
    c3_empty_flagset_fallback.1 "cat" "-r" (by decide) (by decide)
      (by decide),
    by decide⟩

/-- C10: the `SAFE_READ_PATHS` restriction binds only the command `cat`:
for any other allowlisted command, every argument list whose tokens are
metacharacter-free and, when flag-shaped, pass the flag check, is accepted
verbatim — no path condition is consulted, so absolute paths outside
`SAFE_READ_PATHS` and tokens containing `..` or `~` go through. -/
theorem c10_paths_only_for_cat (s cmd : String) (flags args : List String)
    (hs : shlexSplitStr (pyStrip s) = some (cmd :: args))
    (hl : lookupSafe cmd = some flags)
    (hnc : cmd ≠ "cat")
    (hargs : ∀ a ∈ args, hasMeta a = false ∧
      (strStartsWith a "-" = true → flagOk flags a = true)) :
    is_command_safe s = some (cmd :: args) := by
  have hall : ∀ a ∈ args, checkArg cmd flags a = true := by
    intro a ha
    obtain ⟨hm, hf⟩ := hargs a ha
    by_cases hd : strStartsWith a "-" = true
    · simp [checkArg, hm, hnc, hd, hf hd]
    · simp [checkArg, hm, hnc, hd]
  rw [is_command_safe_cons hs]
  split
  · rename_i hnone
    rw [hnone] at hl
    cases hl
  · rename_i allowed hl'
    rw [hl] at hl'
    injection hl' with hfl
    subst hfl
    rw [checkLoop_of_all hall]

/-- Witness for C10: `head -n 5 /etc/passwd` is accepted although
`/etc/passwd` is an absolute path outside `SAFE_READ_PATHS`, and
`head .. ~x` is accepted although its tokens contain `..` and `~`. -/
theorem c10_paths_only_for_cat_witness :
    SAFE_READ_PATHS.contains "/etc/passwd" = false ∧
      is_command_safe "head -n 5 /etc/passwd" =
        some ["head", "-n", "5", "/etc/passwd"] ∧
      is_command_safe "head .. ~x" = some ["head", "..", "~x"] :=
  ⟨by decide,
    c10_paths_only_for_cat "head -n 5 /etc/passwd" "head" ["-n"]
      ["-n", "5", "/etc/passwd"] (by decide) (by decide) (by decide)
      (by decide),
    c10_paths_only_for_cat "head .. ~x" "head" ["-n"] ["..", "~x"]
      (by decide) (by decide) (by decide) (by decide)⟩

/-- C2 counterexample: `echo hi; rm -rf /` is intercepted by the portfolio
echo handler before validation; the endpoint answers with the echoed text
and success status 0 (HTTP 200), not with the rejection response — even
though the validator itself rejects the string. -/
theorem c2_counterexample :
    run_command "" "" (fun _ => .err "") "echo hi; rm -rf /" =
      ⟨⟨"hi; rm -rf /", 0, 200⟩, false⟩ ∧
      is_command_safe "echo hi; rm -rf /" = none :=
  ⟨by decide, by decide⟩

/-- C2 (amended): the validator rejects `echo hi; rm -rf /`, but the
endpoint never consults it: for every executor and every `date`/`sysinfo`
text, the portfolio echo branch answers `hi; rm -rf /` with status 0 and
HTTP 200, without invoking the Executor. -/
theorem c2_echo_intercepts (now_str sysinfo : String)
    (ex : List String → ExecOutcome) :
    run_command now_str sysinfo ex "echo hi; rm -rf /" =
      ⟨⟨"hi; rm -rf /", 0, 200⟩, false⟩ ∧
      is_command_safe "echo hi; rm -rf /" = none :=
  ⟨rfl, by decide⟩

/-- C8: an input that is empty or consists only of whitespace yields the
empty output with status 0 (HTTP 200) and never invokes the Executor,
whatever the executor and the `date`/`sysinfo` texts are. -/
theorem c8_whitespace_noop (now_str sysinfo : String)
    (ex : List String → ExecOutcome) (raw : String)
    (hws : ∀ c ∈ raw.data, pyWsChar c = true) :
    run_command now_str sysinfo ex raw = ⟨⟨"", 0, 200⟩, false⟩ := by
  unfold run_command
  rw [pyStrip_eq_empty hws]
  rfl

/-- Witness for C8 at the concrete whitespace-only input.  -/
theorem c8_whitespace_noop_witness :
    (∀ c ∈ "  \t ".data, pyWsChar c = true) ∧
      run_command "" "" (fun _ => .err "") "  \t " = ⟨⟨"", 0, 200⟩, false⟩ :=
  ⟨by decide, c8_whitespace_noop "" "" (fun _ => .err "") "  \t " (by decide)⟩

/-- C9: the combined output is stdout followed by stderr, with exactly one
separating newline inserted iff both streams are non-empty; an empty
stream contributes nothing. -/
theorem c9_combined_output (stdout stderr : String) :
    combineOutput stdout stderr =
      stdout ++ (if stdout ≠ "" ∧ stderr ≠ "" then "\n" else "") ++ stderr := by
  unfold combineOutput
  by_cases ho : stdout = "" <;> by_cases he : stderr = "" <;>
    simp [ho, he, str_empty_append, str_append_empty]

/-- C6 counterexample: on a spawn failure the endpoint echoes the raw
exception text inside the output — the message is not fixed (it varies
with the error) and contains the OS error text; HTTP status is 500 and the
body status is 1. -/
theorem c6_counterexample :
    run_command "" "" (fun _ => .err "[Errno 2] No such file or directory") "ls" =
      ⟨⟨"Error executing command: [Errno 2] No such file or directory",
        1, 500⟩, true⟩ ∧
      (run_command "" "" (fun _ => .err "[Errno 2] No such file or directory") "ls").resp.output ≠
        (run_command "" "" (fun _ => .err "permission denied") "ls").resp.output ∧
      strContainsSub
        "Error executing command: [Errno 2] No such file or directory"
        "[Errno 2] No such file or directory" = true :=
  ⟨by decide, by decide, by decide⟩

/-- C6 (amended): when spawning fails with exception text `m`, the
response is HTTP 500 with status field 1, and the output is the prefix
`Error executing command: ` followed by `m` — the raw error text is
included, not a fixed generic message. -/
theorem c6_spawn_failure_response (now_str sysinfo : String)
    (ex : List String → ExecOutcome) (raw m : String) (argv : List String)
    (hne : ¬ pyStrip raw = "")
    (hpf : handle_portfolio_command now_str (pyStrip raw) = none)
    (hsys : ¬ pyLower (pyStrip raw) = "sysinfo")
    (hsafe : is_command_safe (pyStrip raw) = some argv)
    (hex : ex argv = .err m) :
    run_command now_str sysinfo ex raw =
      ⟨⟨"Error executing command: " ++ m, 1, 500⟩, true⟩ := by
  unfold run_command
  rw [if_neg hne, hpf, if_neg hsys, hsafe]
  simp only [hex]

/-- Witness for C6 (amended) at the concrete input `ls` with a failing
executor. -/
theorem c6_spawn_failure_response_witness :
    is_command_safe (pyStrip "ls") = some ["ls"] ∧
      run_command "" "" (fun _ => .err "boom") "ls" =
        ⟨⟨"Error executing command: boom", 1, 500⟩, true⟩ :=
  ⟨by decide,
    c6_spawn_failure_response "" "" (fun _ => .err "boom") "ls" "boom" ["ls"]
      (by decide) (by decide) (by decide) (by decide) rfl⟩

/-- C7 counterexample: `about` and `foobar` are both rejected by the
validator, yet their responses differ — `about` is intercepted by the
portfolio layer and answered with success (status 0, HTTP 200) while
`foobar` receives the generic 403 rejection. -/
theorem c7_counterexample :
    is_command_safe "about" = none ∧
      is_command_safe "foobar" = none ∧
      run_command "" "" (fun _ => .err "") "foobar" =
        ⟨⟨notAllowedMsg, 1, 403⟩, false⟩ ∧
      (run_command "" "" (fun _ => .err "") "about").resp.status = 0 ∧
      (run_command "" "" (fun _ => .err "") "about").resp.http = 200 :=
  ⟨by decide, by decide, by decide, by decide, by decide⟩

/-- C7 (amended): every input that reaches the validator (is non-empty
after stripping and is intercepted by neither the portfolio nor the
sysinfo handler) and is rejected receives the identical response,
regardless of the rejection kind: HTTP 403, the fixed not-permitted
output, and status field 1; the Executor is not invoked. -/
theorem c7_uniform_rejection (now_str sysinfo : String)
    (ex : List String → ExecOutcome) (raw : String)
    (hne : ¬ pyStrip raw = "")
    (hpf : handle_portfolio_command now_str (pyStrip raw) = none)
    (hsys : ¬ pyLower (pyStrip raw) = "sysinfo")
    (hrej : is_command_safe (pyStrip raw) = none) :
    run_command now_str sysinfo ex raw = ⟨⟨notAllowedMsg, 1, 403⟩, false⟩ := by
  unfold run_command
  rw [if_neg hne, hpf, if_neg hsys, hrej]

/-- Witness for C7 (amended) at the concrete rejected input `foobar`. -/
theorem c7_uniform_rejection_witness :
    is_command_safe (pyStrip "foobar") = none ∧
      run_command "" "" (fun _ => .err "") "foobar" =
        ⟨⟨notAllowedMsg, 1, 403⟩, false⟩ :=
  ⟨by decide,
    c7_uniform_rejection "" "" (fun _ => .err "") "foobar"
      (by decide) (by decide) (by decide) (by decide)⟩

end PyTerm
